import Mathlib

/-!
Verification of the Mantri Priority Scoring Algorithm
(`backend/routers/algorithm.py` of the `pc_sales` repository).

The pipeline is a pure batch transform `mapped table -> (scored rows, stats)`.
We embed it shallowly:

* a spreadsheet cell is an `Option String` (`none` models a missing value,
  i.e. Python `None` / float NaN, for which `pd.isna` is true; `some s`
  models the cell's `str()` rendering);
* Python floats are modelled as `ℚ` (every numeric constant of the
  algorithm — weights, bracket points, the 0.85/0.73/0.40/0.20/0.07/0.7
  multipliers — is a short decimal, and no reachable `round(_, 2)` call
  sits on an exact half, so rational rounding agrees with the source);
* the Excel reader (`pd.read_excel` + dropping the sub-header row) is
  outside the embedding: the input is the resulting header/row table;
* `datetime.now()` is outside the embedding: the current month is an
  explicit argument, as in `score_season(period, current_month)`.

Fallible code (`raise ValueError`) becomes `Except String _`.
-/

set_option maxRecDepth 4000

namespace PCSales

/-- Python's `round(x, 2)` on the values reached by this algorithm:
round to 2 decimal places. (Python rounds ties to even on binary floats;
no reachable value is an exact tie, see module comment.) -/
def round2 (q : ℚ) : ℚ := (round (q * 100) : ℤ) / 100

/-- Python's `needle in haystack` on lists of characters: `listStartsWith`
is the prefixed-by test used by the scanner below. -/
def listStartsWith : List Char → List Char → Bool
  | [], _ => true
  | _ :: _, [] => false
  | c :: cs, d :: ds => c == d && listStartsWith cs ds

/-- Substring occurrence test on character lists (Python's `in` operator). -/
def listHasSub (pat : List Char) : List Char → Bool
  | [] => listStartsWith pat []
  | s@(_ :: rest) => listStartsWith pat s || listHasSub pat rest

/-- Python's `pat in s` for strings. -/
def strHasSub (s pat : String) : Bool := listHasSub pat.toList s.toList

/-- Python's `str.lower()` (ASCII case mapping suffices for this
repository's data; implemented by structural recursion so the kernel can
evaluate it). -/
def strLower (s : String) : String := String.mk (s.toList.map Char.toLower)

/-- Python's `str.upper()`. -/
def strUpper (s : String) : String := String.mk (s.toList.map Char.toUpper)

/-- Python's whitespace test for `str.strip()`. -/
def isPySpace (c : Char) : Bool :=
  c == ' ' || c == '\t' || c == '\n' || c == '\r' || c == '\x0b' || c == '\x0c'

/-- Python's `str.strip()`: drop whitespace from both ends. -/
def strTrim (s : String) : String :=
  String.mk (((s.toList.dropWhile isPySpace).reverse.dropWhile isPySpace).reverse)

/-- The `MONTH_MAP` from the source: lowercase month name/abbreviation
fragments mapped to month numbers. -/
def MONTH_MAP : List (String × Nat) :=
  [("jan", 1), ("january", 1), ("feb", 2), ("february", 2), ("mar", 3), ("march", 3),
   ("apr", 4), ("april", 4), ("may", 5), ("jun", 6), ("june", 6), ("jul", 7), ("july", 7),
   ("aug", 8), ("august", 8), ("sep", 9), ("sept", 9), ("set", 9), ("september", 9),
   ("oct", 10), ("october", 10), ("nov", 11), ("november", 11), ("dec", 12), ("december", 12)]

/-- The `sorted({v for k, v in MONTH_MAP.items() if k in p})` from
`parse_season_months`: the distinct matched month numbers in ascending
order (realised as a filter of `[1..12]`, which is sorted and
duplicate-free by construction). -/
def matched_months (p : String) : List Nat :=
  (List.range' 1 12).filter (fun v => MONTH_MAP.any (fun kv => kv.2 == v && strHasSub p kv.1))

/-- The `parse_season_months` from the source: lowercase the period text,
collect the sorted distinct matched months; with fewer than two matches
return them as-is, otherwise return `range(start, end+1)` when
`end >= start` and the wrapped union `range(start, 13) + range(1, end+1)`
otherwise. -/
def parse_season_months (period : Option String) : List Nat :=
  match period with
  | none => []
  | some period =>
    let p := strLower period
    let found := matched_months p
    if found.length < 2 then found
    else
      let start := found.headD 0
      let e := found.getLastD 0
      if start ≤ e then List.range' start (e + 1 - start)
      else List.range' start (13 - start) ++ List.range' 1 e

/-- The `months_distance` from the source: 99 when the season is empty, else
the minimum over season months of the circular distance
`min(|current - sm|, 12 - |current - sm|)` (computed in `Int`, as Python
computes it in unbounded int). -/
def months_distance (current : Nat) (season_months : List Nat) : Int :=
  if season_months = [] then 99
  else
    ((season_months.map (fun sm =>
      let d : Int := ((current : Int) - (sm : Int)).natAbs
      min d (12 - d))).min?).getD 99

/-- The `WEIGHTS` table from the source. -/
structure Weights where
  season : ℚ
  payment : ℚ
  holder : ℚ
  business : ℚ
  sabhasad : ℚ
  support : ℚ

/-- The `WEIGHTS = {season: 22, payment: 22, holder: 20, business: 12,
sabhasad: 12, support: 12}`. -/
def WEIGHTS : Weights :=
  { season := 22, payment := 22, holder := 20, business := 12, sabhasad := 12, support := 12 }

/-- The `score_season` from the source, with the current month passed
explicitly (the `None` default pulls it from the wall clock, which is
outside the embedding). -/
def score_season (period : Option String) (current_month : Nat) : ℚ :=
  let season := parse_season_months period
  if season = [] then 0
  else
    let w := WEIGHTS.season
    if current_month ∈ season then
      let center := season.getD (season.length / 2) 0
      let d0 : Int := ((current_month : Int) - (center : Int)).natAbs
      let dist : Int := min d0 (12 - d0)
      if dist = 0 then w
      else if dist = 1 then round2 (w * 0.85)
      else round2 (w * 0.73)
    else
      let dist := months_distance current_month season
      if dist = 1 then round2 (w * 0.40)
      else if dist = 2 then round2 (w * 0.20)
      else if dist = 3 then round2 (w * 0.07)
      else 2

/-- The `DISPATCH_RANGES` from the source. -/
def DISPATCH_RANGES : List (ℚ × ℚ) := [(10, 22), (20, 18), (30, 13), (45, 7)]

/-- The `DISPATCH_AFTER_45` from the source. -/
def DISPATCH_AFTER_45 : ℚ := 2

/-- The `DEMO_RANGES` from the source. -/
def DEMO_RANGES : List (ℚ × ℚ) := [(10, 22), (20, 18), (30, 13), (45, 7)]

/-- The `DEMO_AFTER_45` from the source. -/
def DEMO_AFTER_45 : ℚ := 2

/-- Digit-string value (used by the float parser below). -/
def digitsVal (l : List Char) : Nat :=
  l.foldl (fun a c => a * 10 + (c.toNat - 48)) 0

/-- Split a character list at the dots (Python `s.split('.')`). -/
def splitDot : List Char → List (List Char)
  | [] => [[]]
  | c :: cs =>
    match splitDot cs with
    | [] => if c == '.' then [[], []] else [[c]]
    | h :: t => if c == '.' then [] :: h :: t else (c :: h) :: t

/-- Python's `float(s)` on the decimal forms that occur in this data:
optional sign, then `D`, `D.`, `D.F` or `.F` with `D`, `F` digit runs.
(Exotic `float()` forms — exponents, `inf`, underscore separators —
are not modelled; they do not occur in day-count cells.) -/
def pyFloat (s : String) : Option ℚ :=
  let signAndBody : ℚ × List Char :=
    match s.toList with
    | '-' :: rest => (-1, rest)
    | '+' :: rest => (1, rest)
    | l => (1, l)
  let sgn := signAndBody.1
  let body := signAndBody.2
  match splitDot body with
  | [a] =>
    if a ≠ [] ∧ a.all Char.isDigit then some (sgn * digitsVal a) else none
  | [a, b] =>
    if (a ≠ [] ∨ b ≠ []) ∧ a.all Char.isDigit ∧ b.all Char.isDigit then
      some (sgn * ((digitsVal a : ℚ) + (digitsVal b : ℚ) / 10 ^ b.length))
    else none
  | _ => none

/-- The `parse_days` from the source: `None`/NaN and the sentinel strings
(after strip/lower) are unscored (`none`); otherwise parse as float,
unparsable also unscored. -/
def parse_days (val : Option String) : Option ℚ :=
  match val with
  | none => none
  | some v =>
    let s := strLower (strTrim v)
    if ["-", "- ", "", "nan", "pending"].contains s then none
    else pyFloat s

/-- The bracket loop inside `days_to_score`: first `(max_d, pts)` pair
with `days ≤ max_d` wins, else `after_max`. -/
def bracketScore (d : ℚ) : List (ℚ × ℚ) → ℚ → ℚ
  | [], after_max => after_max
  | (max_d, pts) :: rest, after_max =>
    if d ≤ max_d then pts else bracketScore d rest after_max

/-- The `days_to_score` from the source; NaN in/out is modelled as `none`. -/
def days_to_score (days : Option ℚ) (ranges : List (ℚ × ℚ)) (after_max : ℚ) : Option ℚ :=
  match days with
  | none => none
  | some d => some (bracketScore d ranges after_max)

/-- The `score_payment` from the source: bracket dispatch and demo days
independently, then combine (both: weighted 2:1 mean; dispatch only:
its score; demo only: 70% of its score; neither: 0). -/
def score_payment (demo_raw dispatch_raw : Option String) : ℚ :=
  let dispatch := parse_days dispatch_raw
  let demo := parse_days demo_raw
  let d_score := days_to_score dispatch DISPATCH_RANGES DISPATCH_AFTER_45
  let dm_score := days_to_score demo DEMO_RANGES DEMO_AFTER_45
  match d_score, dm_score with
  | some d, some dm => round2 ((2 * d + 1 * dm) / 3)
  | some d, none => round2 d
  | none, some dm => round2 (dm * 0.7)
  | none, none => 0

/-- The `score_holder` from the source: dictionary lookup on the
upper/stripped value, default 0. -/
def score_holder (val : Option String) : ℚ :=
  match val with
  | none => 0
  | some v =>
    let u := strTrim (strUpper v)
    (([("H", (20 : ℚ)), ("HIGH", 20), ("M", 10), ("MEDIUM", 10),
       ("L", 5), ("LOW", 5)].lookup u)).getD 0

/-- The `score_business` from the source: substring matches on the
upper/stripped value, YES before MID before NO. -/
def score_business (val : Option String) : ℚ :=
  match val with
  | none => 0
  | some v =>
    let u := strTrim (strUpper v)
    if strHasSub u "YES" then 12
    else if strHasSub u "MID" then 7
    else if strHasSub u "NO" then 0
    else 0

/-- The `score_sabhasad` from the source: NOT before AWARE. -/
def score_sabhasad (val : Option String) : ℚ :=
  match val with
  | none => 0
  | some v =>
    let u := strTrim (strUpper v)
    if strHasSub u "NOT" then 0
    else if strHasSub u "AWARE" then 12
    else 0

/-- The `score_support` from the source: HIGH, then MEDIUM/MED, then LOW. -/
def score_support (val : Option String) : ℚ :=
  match val with
  | none => 0
  | some v =>
    let u := strTrim (strUpper v)
    if strHasSub u "HIGH" then 12
    else if strHasSub u "MEDIUM" || strHasSub u "MED" then 7
    else if strHasSub u "LOW" then 2
    else 0

/-- The `priority_label` from the source. -/
def priority_label (score : ℚ) : String :=
  if 75 ≤ score then "URGENT"
  else if 55 ≤ score then "HIGH"
  else if 35 ≤ score then "MEDIUM"
  else "LOW"

/-- A mapped-table row: one `Option String` cell per column (`none` is a
missing cell; positions beyond the row's length read as missing). -/
abbrev Row := List (Option String)

/-- The mapped table handed to `load_and_process`: the header (pandas
`df.columns`) and the data rows after the sub-header row was dropped. -/
structure Table where
  header : List String
  rows : List Row

/-- Positional cell access (after `rename`, field `i` of the `col_map`). -/
def cellAt (r : Row) (i : Nat) : Option String := r.getD i none

/-- Column 12 of `col_map`: `NATURE_SABHASAD`. -/
def NATURE_SABHASAD (r : Row) : Option String := cellAt r 12

/-- Column 14 of `col_map`: `SUPPORT`. -/
def SUPPORT (r : Row) : Option String := cellAt r 14

/-- Column 15 of `col_map`: `DELIVERY_PERIOD`. -/
def DELIVERY_PERIOD (r : Row) : Option String := cellAt r 15

/-- Column 16 of `col_map`: `DEMO_DAYS`. -/
def DEMO_DAYS (r : Row) : Option String := cellAt r 16

/-- Column 17 of `col_map`: `DISPATCH_DAYS`. -/
def DISPATCH_DAYS (r : Row) : Option String := cellAt r 17

/-- Column 19 of `col_map`: `HIGH_LOW_HOLDER`. -/
def HIGH_LOW_HOLDER (r : Row) : Option String := cellAt r 19

/-- Column 20 of `col_map`: `CURRENT_BUSINESS`. -/
def CURRENT_BUSINESS (r : Row) : Option String := cellAt r 20

/-- The `is_invalid` from `load_and_process`: `None`/NaN cells, and the
sentinel strings after strip/lower, are invalid. -/
def is_invalid (val : Option String) : Bool :=
  match val with
  | none => true
  | some v => ["", "nan", "-", "none", "0", "pending"].contains (strLower (strTrim v))

/-- The per-row drop mask: `df[scoring_cols].map(is_invalid).any(axis=1)`
over the six `scoring_cols`. -/
def row_invalid (r : Row) : Bool :=
  [DELIVERY_PERIOD r, DISPATCH_DAYS r, HIGH_LOW_HOLDER r,
   CURRENT_BUSINESS r, NATURE_SABHASAD r, SUPPORT r].any is_invalid

/-- The `df['TOTAL_SCORE']` of one row: the six factor scores summed and
rounded to 2 decimals. -/
def totalScore (current_month : Nat) (r : Row) : ℚ :=
  round2 (score_season (DELIVERY_PERIOD r) current_month
    + score_payment (DEMO_DAYS r) (DISPATCH_DAYS r)
    + score_holder (HIGH_LOW_HOLDER r)
    + score_business (CURRENT_BUSINESS r)
    + score_sabhasad (NATURE_SABHASAD r)
    + score_support (SUPPORT r))

/-- The `df['TOTAL_SCORE'].rank(ascending=False, method='min')`: one plus the
number of valid rows with strictly greater total score. -/
def rankOf (current_month : Nat) (valid : List Row) (r : Row) : Nat :=
  1 + (valid.filter (fun r2 => totalScore current_month r < totalScore current_month r2)).length

/-- One output row: the mapped input row plus its factor scores, total,
rank and label. -/
structure ScoredRow where
  src : Row
  SCORE_SEASON : ℚ
  SCORE_PAYMENT : ℚ
  SCORE_HOLDER : ℚ
  SCORE_BUSINESS : ℚ
  SCORE_SABHASAD : ℚ
  SCORE_SUPPORT : ℚ
  TOTAL_SCORE : ℚ
  PRIORITY_RANK : Nat
  PRIORITY_LABEL : String
  deriving DecidableEq, Inhabited

/-- Build the scored record of one valid row (`valid` is the whole
filtered table, needed for the rank). -/
def mkScored (current_month : Nat) (valid : List Row) (r : Row) : ScoredRow :=
  { src := r
    SCORE_SEASON := score_season (DELIVERY_PERIOD r) current_month
    SCORE_PAYMENT := score_payment (DEMO_DAYS r) (DISPATCH_DAYS r)
    SCORE_HOLDER := score_holder (HIGH_LOW_HOLDER r)
    SCORE_BUSINESS := score_business (CURRENT_BUSINESS r)
    SCORE_SABHASAD := score_sabhasad (NATURE_SABHASAD r)
    SCORE_SUPPORT := score_support (SUPPORT r)
    TOTAL_SCORE := totalScore current_month r
    PRIORITY_RANK := rankOf current_month valid r
    PRIORITY_LABEL := priority_label (totalScore current_month r) }

/-- The `stats` dict (the `current_month` label string, which comes from
the wall clock, is outside the embedding). -/
structure Stats where
  urgent : Nat
  high : Nat
  medium : Nat
  low : Nat
  total_scored : Nat
  total_raw : Nat
  dropped : Nat
  deriving DecidableEq, Inhabited

/-- The result dict of `load_and_process`. -/
structure Output where
  rows : List ScoredRow
  stats : Stats
  deriving DecidableEq, Inhabited

/-- The body of `load_and_process` past the column gate: drop invalid
rows, score, rank, sort by rank, and assemble the stats. -/
def processTable (current_month : Nat) (t : Table) : Output :=
  let total_raw := t.rows.length
  let dropped_count := (t.rows.filter row_invalid).length
  let valid := t.rows.filter (fun r => !row_invalid r)
  let scored := valid.map (mkScored current_month valid)
  let sorted := scored.mergeSort (fun a b => a.PRIORITY_RANK ≤ b.PRIORITY_RANK)
  let scores := sorted.map ScoredRow.TOTAL_SCORE
  { rows := sorted
    stats :=
      { urgent := (scores.filter (fun s => (75 : ℚ) ≤ s)).length
        high := (scores.filter (fun s => (55 : ℚ) ≤ s ∧ s < 75)).length
        medium := (scores.filter (fun s => (35 : ℚ) ≤ s ∧ s < 55)).length
        low := (scores.filter (fun s => s < (35 : ℚ))).length
        total_scored := sorted.length
        total_raw := total_raw
        dropped := dropped_count } }

/-- The `load_and_process` from the source, starting at the mapped table
(the Excel byte decoding and the dropping of the sub-header row are
outside the embedding; the JSON stringification of cells keeps every
field of `ScoredRow` and is omitted). `raise ValueError` is
`Except.error`. -/
def load_and_process (current_month : Nat) (t : Table) : Except String Output :=
  if t.header.length < 21 then
    Except.error ("Excel must have at least 21 columns, found " ++ toString t.header.length)
  else
    Except.ok (processTable current_month t)

/-- A 21-column header (the names are irrelevant: mapping is positional). -/
def hdr21 : List String :=
  ["c0", "c1", "c2", "c3", "c4", "c5", "c6", "c7", "c8", "c9", "c10",
   "c11", "c12", "c13", "c14", "c15", "c16", "c17", "c18", "c19", "c20"]

/-- A concrete valid row: delivery period "Oct-Dec", demo 15 days,
dispatch 10 days, holder "H", business "Yes", members "Aware",
support "High". -/
def validRow : Row :=
  [some "1", some "2024-01-05", some "V", some "T", some "D", some "S", some "Co",
   some "7am", some "6pm", some "120", some "100", some "50", some "Aware",
   some "Name", some "High", some "Oct-Dec", some "15", some "10", some "Owner",
   some "H", some "Yes"]

/-- The same row with holder tier "pending": dropped by the validator. -/
def pendingRow : Row :=
  [some "2", some "2024-01-06", some "V", some "T", some "D", some "S", some "Co",
   some "7am", some "6pm", some "120", some "100", some "50", some "Aware",
   some "Name", some "High", some "Oct-Dec", some "15", some "10", some "Owner",
   some "pending", some "Yes"]

/-- A two-row sample table: one valid row, one dropped row. -/
def sampleTable : Table := { header := hdr21, rows := [validRow, pendingRow] }

/-- The scored record of the sample table's single valid row. -/
def sampleScored : ScoredRow := mkScored 12 [validRow] validRow

/-- A 20-column header: one column short of the gate. -/
def hdr20 : List String :=
  ["c0", "c1", "c2", "c3", "c4", "c5", "c6", "c7", "c8", "c9", "c10",
   "c11", "c12", "c13", "c14", "c15", "c16", "c17", "c18", "c19"]

/-- A table that fails the column gate. -/
def shortTable : Table := { header := hdr20, rows := [validRow] }

/-! ## Sanity evaluations of the embedded functions -/

example : parse_season_months (some "Nov-Feb") = [2, 3, 4, 5, 6, 7, 8, 9, 10, 11] := by decide
example : parse_season_months (some "Oct-Dec") = [10, 11, 12] := by decide
example : score_season (some "Oct-Dec") 12 = 18.7 := by with_unfolding_all decide
example : score_season (some "Nov-Feb") 12 = 8.8 := by with_unfolding_all decide
example : parse_days (some "15") = some 15 := by with_unfolding_all decide
example : parse_days (some " - ") = none := by decide
example : score_payment (some "-") (some "15") = 18 := by with_unfolding_all decide
example : score_holder (some "h ") = 20 := by with_unfolding_all decide
example : score_support (some "Medium") = 7 := by with_unfolding_all decide
example : row_invalid validRow = false := by decide
example : row_invalid pendingRow = true := by decide

/-! ## Rounding lemmas -/

theorem round2_mono {a b : ℚ} (h : a ≤ b) : round2 a ≤ round2 b := by
  unfold round2
  have hr : round (a * 100) ≤ round (b * 100) := by
    rw [round_eq, round_eq]
    exact Int.floor_le_floor (by linarith)
  have hq : ((round (a * 100) : ℤ) : ℚ) ≤ ((round (b * 100) : ℤ) : ℚ) := by exact_mod_cast hr
  linarith

theorem round2_zero : round2 0 = 0 := by with_unfolding_all decide

theorem round2_two : round2 2 = 2 := by with_unfolding_all decide

theorem round2_22 : round2 22 = 22 := by with_unfolding_all decide

theorem round2_100 : round2 100 = 100 := by with_unfolding_all decide

/-! ## Per-factor score bounds -/

theorem score_season_bounds (p : Option String) (m : Nat) :
    0 ≤ score_season p m ∧ score_season p m ≤ 22 := by
  unfold score_season
  dsimp only
  have c85 : round2 (WEIGHTS.season * 0.85) = 18.7 := by with_unfolding_all decide
  have c73 : round2 (WEIGHTS.season * 0.73) = 16.06 := by with_unfolding_all decide
  have c40 : round2 (WEIGHTS.season * 0.40) = 8.8 := by with_unfolding_all decide
  have c20 : round2 (WEIGHTS.season * 0.20) = 4.4 := by with_unfolding_all decide
  have c07 : round2 (WEIGHTS.season * 0.07) = 1.54 := by with_unfolding_all decide
  split_ifs <;> simp_all [WEIGHTS] <;> norm_num

theorem bracketScore_dispatch (d : ℚ) :
    bracketScore d DISPATCH_RANGES DISPATCH_AFTER_45 =
      if d ≤ 10 then 22 else if d ≤ 20 then 18 else if d ≤ 30 then 13
      else if d ≤ 45 then 7 else 2 := by
  simp only [DISPATCH_RANGES, DISPATCH_AFTER_45, bracketScore]

theorem bracketScore_demo (d : ℚ) :
    bracketScore d DEMO_RANGES DEMO_AFTER_45 =
      bracketScore d DISPATCH_RANGES DISPATCH_AFTER_45 := rfl

theorem bracketScore_bounds (d : ℚ) :
    2 ≤ bracketScore d DISPATCH_RANGES DISPATCH_AFTER_45 ∧
      bracketScore d DISPATCH_RANGES DISPATCH_AFTER_45 ≤ 22 := by
  rw [bracketScore_dispatch]
  split_ifs <;> norm_num

theorem score_payment_bounds (a b : Option String) :
    0 ≤ score_payment a b ∧ score_payment a b ≤ 22 := by
  unfold score_payment days_to_score
  dsimp only
  cases hb : parse_days b <;> cases ha : parse_days a <;> dsimp only
  · norm_num
  · rename_i dm
    have h := bracketScore_bounds dm
    rw [bracketScore_demo] at *
    constructor
    · calc (0 : ℚ) ≤ round2 (2 * 0.7) := by with_unfolding_all decide
        _ ≤ _ := round2_mono (by nlinarith [h.1])
    · calc round2 (bracketScore dm DISPATCH_RANGES DISPATCH_AFTER_45 * 0.7)
          ≤ round2 (22 * 0.7) := round2_mono (by nlinarith [h.2])
        _ ≤ 22 := by with_unfolding_all decide
  · rename_i d
    have h := bracketScore_bounds d
    constructor
    · calc (0 : ℚ) = round2 0 := round2_zero.symm
        _ ≤ _ := round2_mono (by linarith [h.1])
    · calc round2 (bracketScore d DISPATCH_RANGES DISPATCH_AFTER_45)
          ≤ round2 22 := round2_mono h.2
        _ = 22 := round2_22
  · rename_i d dm
    have hd := bracketScore_bounds d
    have hm := bracketScore_bounds dm
    rw [bracketScore_demo] at *
    constructor
    · calc (0 : ℚ) = round2 0 := round2_zero.symm
        _ ≤ _ := round2_mono (by linarith [hd.1, hm.1])
    · calc round2 ((2 * bracketScore d DISPATCH_RANGES DISPATCH_AFTER_45 +
              1 * bracketScore dm DISPATCH_RANGES DISPATCH_AFTER_45) / 3)
          ≤ round2 22 := round2_mono (by linarith [hd.2, hm.2])
        _ = 22 := round2_22

theorem score_holder_bounds (v : Option String) :
    0 ≤ score_holder v ∧ score_holder v ≤ 20 := by
  unfold score_holder
  cases v <;> dsimp only
  · norm_num
  · rename_i s
    simp only [List.lookup]
    repeat' split
    all_goals simp_all <;> norm_num

theorem score_business_bounds (v : Option String) :
    0 ≤ score_business v ∧ score_business v ≤ 12 := by
  unfold score_business
  cases v <;> dsimp only
  · norm_num
  · split_ifs <;> norm_num

theorem score_sabhasad_bounds (v : Option String) :
    0 ≤ score_sabhasad v ∧ score_sabhasad v ≤ 12 := by
  unfold score_sabhasad
  cases v <;> dsimp only
  · norm_num
  · split_ifs <;> norm_num

theorem score_support_bounds (v : Option String) :
    0 ≤ score_support v ∧ score_support v ≤ 12 := by
  unfold score_support
  cases v <;> dsimp only
  · norm_num
  · split_ifs <;> norm_num

theorem priority_label_iff (q : ℚ) :
    (priority_label q = "URGENT" ↔ 75 ≤ q) ∧
    (priority_label q = "HIGH" ↔ 55 ≤ q ∧ q < 75) ∧
    (priority_label q = "MEDIUM" ↔ 35 ≤ q ∧ q < 55) ∧
    (priority_label q = "LOW" ↔ q < 35) := by
  unfold priority_label
  split_ifs with h1 h2 h3 <;> refine ⟨?_, ?_, ?_, ?_⟩ <;> simp <;>
    first
      | linarith
      | (constructor <;> linarith)
      | (intros; linarith)

theorem totalScore_bounds (m : Nat) (r : Row) :
    0 ≤ totalScore m r ∧ totalScore m r ≤ 100 := by
  have h1 := score_season_bounds (DELIVERY_PERIOD r) m
  have h2 := score_payment_bounds (DEMO_DAYS r) (DISPATCH_DAYS r)
  have h3 := score_holder_bounds (HIGH_LOW_HOLDER r)
  have h4 := score_business_bounds (CURRENT_BUSINESS r)
  have h5 := score_sabhasad_bounds (NATURE_SABHASAD r)
  have h6 := score_support_bounds (SUPPORT r)
  unfold totalScore
  constructor
  · calc (0 : ℚ) = round2 0 := round2_zero.symm
      _ ≤ _ := round2_mono (by linarith [h1.1, h2.1, h3.1, h4.1, h5.1, h6.1])
  · calc round2 _ ≤ round2 100 :=
        round2_mono (by linarith [h1.2, h2.2, h3.2, h4.2, h5.2, h6.2])
      _ = 100 := round2_100

/-! ## Pipeline access lemmas -/

theorem load_ok_of {m : Nat} {t : Table} (h : 21 ≤ t.header.length) :
    load_and_process m t = Except.ok (processTable m t) := by
  unfold load_and_process
  rw [if_neg (by omega)]

theorem load_eq_ok {m : Nat} {t : Table} {out : Output}
    (h : load_and_process m t = Except.ok out) :
    out = processTable m t ∧ 21 ≤ t.header.length := by
  unfold load_and_process at h
  split at h
  · exact absurd h (by simp)
  · exact ⟨(Except.ok.injEq _ _).mp h |>.symm, by omega⟩

theorem processTable_rows (m : Nat) (t : Table) :
    (processTable m t).rows =
      ((t.rows.filter (fun r => !row_invalid r)).map
          (mkScored m (t.rows.filter (fun r => !row_invalid r)))).mergeSort
        (fun a b => a.PRIORITY_RANK ≤ b.PRIORITY_RANK) := rfl

theorem mem_rows_iff (m : Nat) (t : Table) (s : ScoredRow) :
    s ∈ (processTable m t).rows ↔
      ∃ r ∈ t.rows.filter (fun r => !row_invalid r),
        mkScored m (t.rows.filter (fun r => !row_invalid r)) r = s := by
  rw [processTable_rows, (List.mergeSort_perm _ _).mem_iff, List.mem_map]

theorem length_filter_split {α : Type} (p : α → Bool) (l : List α) :
    (l.filter (fun a => !p a)).length + (l.filter p).length = l.length := by
  induction l with
  | nil => rfl
  | cons a l ih =>
    by_cases h : p a <;> simp [List.filter, h] <;> omega

/-! ## Claim theorems -/

/-- C1: the claim says a period whose matched end month is numerically
below its start month wraps across year-end, concretely that "Nov-Feb"
yields the season {11, 12, 1, 2} and in December a score in
{22, 18.7, 16.06}. The code sorts the matched months first, so the end
month is never below the start: "Nov-Feb" actually parses to the months
2..11 (December is not in the season) and scores 8.8 in December. -/
theorem c1_wrap_around_dead :
    parse_season_months (some "Nov-Feb") = [2, 3, 4, 5, 6, 7, 8, 9, 10, 11] ∧
    12 ∉ parse_season_months (some "Nov-Feb") ∧
    score_season (some "Nov-Feb") 12 = 8.8 ∧
    score_season (some "Nov-Feb") 12 ∉ ([22, 18.7, 16.06] : List ℚ) := by
  refine ⟨by decide, by decide, by with_unfolding_all decide, by with_unfolding_all decide⟩

/-- C2: every scored row's TOTAL_SCORE (the 2-decimal-rounded sum of the
six factor scores) lies in [0, 100]. -/
theorem c2_total_score_bounds (m : Nat) (t : Table) (out : Output)
    (h : load_and_process m t = Except.ok out) :
    ∀ s ∈ out.rows, 0 ≤ s.TOTAL_SCORE ∧ s.TOTAL_SCORE ≤ 100 := by
  obtain ⟨rfl, -⟩ := load_eq_ok h
  intro s hs
  rw [mem_rows_iff] at hs
  obtain ⟨r, hr, rfl⟩ := hs
  exact totalScore_bounds m r

/-- C5: the reported stats satisfy
`total_raw == total_scored + dropped` on every successful run. -/
theorem c5_row_conservation (m : Nat) (t : Table) (out : Output)
    (h : load_and_process m t = Except.ok out) :
    out.stats.total_raw = out.stats.total_scored + out.stats.dropped := by
  obtain ⟨rfl, -⟩ := load_eq_ok h
  have hs := length_filter_split row_invalid t.rows
  simp only [processTable, List.length_mergeSort, List.length_map]
  omega

/-- C8: a mapped table with fewer than 21 columns is rejected with a
validation error reporting the actual column count and no output; a
21-column table is accepted; and the named scoring fields read their
cells strictly by position (columns 15, 16, 17, 19, 20, 12, 14 of the
fixed `col_map`). -/
theorem c8_column_gate (m : Nat) (t : Table) :
    (t.header.length < 21 →
      load_and_process m t =
        Except.error ("Excel must have at least 21 columns, found " ++
          toString t.header.length)) ∧
    (t.header.length = 21 → load_and_process m t = Except.ok (processTable m t)) ∧
    (∀ r : Row, DELIVERY_PERIOD r = r.getD 15 none ∧ DEMO_DAYS r = r.getD 16 none ∧
      DISPATCH_DAYS r = r.getD 17 none ∧ HIGH_LOW_HOLDER r = r.getD 19 none ∧
      CURRENT_BUSINESS r = r.getD 20 none ∧ NATURE_SABHASAD r = r.getD 12 none ∧
      SUPPORT r = r.getD 14 none) := by
  refine ⟨fun h => ?_, fun h => load_ok_of (by omega), fun r => ⟨rfl, rfl, rfl, rfl, rfl, rfl, rfl⟩⟩
  unfold load_and_process
  rw [if_pos h]

/-- C8 witness: a concrete 20-column table is rejected with the
column-count message, and a concrete 21-column table is accepted. -/
theorem c8_column_gate_witness :
    load_and_process 12 shortTable =
      Except.error ("Excel must have at least 21 columns, found " ++
        toString shortTable.header.length) ∧
    load_and_process 12 sampleTable = Except.ok (processTable 12 sampleTable) :=
  ⟨(c8_column_gate 12 shortTable).1 (by decide),
   (c8_column_gate 12 sampleTable).2.1 (by decide)⟩

/-- C9: each of the six factor scorers returns its empty-case score on a
missing (`None`/NaN) input instead of failing: season 0, payment 0 (both
day fields missing), holder 0, business 0, sabhasad 0, support 0. The
scorers are total functions of the cell value. -/
theorem c9_scorer_totality :
    (∀ m : Nat, score_season none m = 0) ∧ score_payment none none = 0 ∧
    score_holder none = 0 ∧ score_business none = 0 ∧
    score_sabhasad none = 0 ∧ score_support none = 0 :=
  ⟨fun _ => rfl, rfl, rfl, rfl, rfl, rfl⟩

/-- C3: each output row's PRIORITY_RANK is one plus the number of output
rows with strictly greater TOTAL_SCORE (competition / "min" ranking over
the total score descending); equal totals share a rank; a row whose
total is maximal has rank 1; and the output is sorted by ascending rank. -/
theorem c3_rank_assignment (m : Nat) (t : Table) (out : Output)
    (h : load_and_process m t = Except.ok out) :
    (∀ s ∈ out.rows, s.PRIORITY_RANK =
      1 + (out.rows.filter (fun s2 => s.TOTAL_SCORE < s2.TOTAL_SCORE)).length) ∧
    (∀ s ∈ out.rows, ∀ s2 ∈ out.rows,
      s.TOTAL_SCORE = s2.TOTAL_SCORE → s.PRIORITY_RANK = s2.PRIORITY_RANK) ∧
    (∀ s ∈ out.rows, (∀ s2 ∈ out.rows, s2.TOTAL_SCORE ≤ s.TOTAL_SCORE) →
      s.PRIORITY_RANK = 1) ∧
    List.Pairwise (fun a b => a.PRIORITY_RANK ≤ b.PRIORITY_RANK) out.rows := by
  obtain ⟨rfl, -⟩ := load_eq_ok h
  have key : ∀ c : ℚ,
      ((processTable m t).rows.filter (fun s2 => c < s2.TOTAL_SCORE)).length =
        ((t.rows.filter (fun r => !row_invalid r)).filter
          (fun r2 => c < totalScore m r2)).length := by
    intro c
    rw [← List.countP_eq_length_filter, ← List.countP_eq_length_filter, processTable_rows,
      (List.mergeSort_perm _ _).countP_eq, List.countP_map]
    rfl
  have hmain : ∀ s ∈ (processTable m t).rows, s.PRIORITY_RANK =
      1 + ((processTable m t).rows.filter
        (fun s2 => s.TOTAL_SCORE < s2.TOTAL_SCORE)).length := by
    intro s hs
    rw [mem_rows_iff] at hs
    obtain ⟨r, hr, rfl⟩ := hs
    rw [key]
    rfl
  refine ⟨hmain, fun s hs s2 hs2 he => ?_, fun s hs hmax => ?_, ?_⟩
  · rw [hmain s hs, hmain s2 hs2, he]
  · rw [hmain s hs]
    have hnil : (processTable m t).rows.filter
        (fun s2 => s.TOTAL_SCORE < s2.TOTAL_SCORE) = [] := by
      rw [List.filter_eq_nil_iff]
      intro a ha
      simp only [decide_eq_true_eq]
      exact not_lt.mpr (hmax a ha)
    rw [hnil]
    rfl
  · rw [processTable_rows]
    have hp := @List.sorted_mergeSort ScoredRow
      (fun a b : ScoredRow => a.PRIORITY_RANK ≤ b.PRIORITY_RANK)
      (fun a b c hab hbc => by
        simp only [decide_eq_true_eq] at *
        omega)
      (fun a b => by
        simp only [Bool.or_eq_true, decide_eq_true_eq]
        omega)
      ((t.rows.filter (fun r => !row_invalid r)).map
        (mkScored m (t.rows.filter (fun r => !row_invalid r))))
    exact hp.imp (fun hab => of_decide_eq_true hab)

/-- The boolean reflection of the priority-label thresholds, used for the
stats counts. -/
theorem label_count_bools (q : ℚ) :
    ((priority_label q == "URGENT") = decide (75 ≤ q)) ∧
    ((priority_label q == "HIGH") = decide (55 ≤ q ∧ q < 75)) ∧
    ((priority_label q == "MEDIUM") = decide (35 ≤ q ∧ q < 55)) ∧
    ((priority_label q == "LOW") = decide (q < 35)) := by
  unfold priority_label
  split_ifs with h1 h2 h3 <;> refine ⟨?_, ?_, ?_, ?_⟩ <;> simp <;>
    first
      | linarith
      | (constructor <;> linarith)
      | (intros; linarith)

/-- C4: PRIORITY_LABEL agrees with the total-score thresholds
(URGENT iff ≥ 75, HIGH iff in [55, 75), MEDIUM iff in [35, 55), LOW iff
< 35), and the summary counts computed from the same thresholds equal
the number of rows bearing each label. -/
theorem c4_label_threshold_agreement (m : Nat) (t : Table) (out : Output)
    (h : load_and_process m t = Except.ok out) :
    (∀ s ∈ out.rows,
      (s.PRIORITY_LABEL = "URGENT" ↔ 75 ≤ s.TOTAL_SCORE) ∧
      (s.PRIORITY_LABEL = "HIGH" ↔ 55 ≤ s.TOTAL_SCORE ∧ s.TOTAL_SCORE < 75) ∧
      (s.PRIORITY_LABEL = "MEDIUM" ↔ 35 ≤ s.TOTAL_SCORE ∧ s.TOTAL_SCORE < 55) ∧
      (s.PRIORITY_LABEL = "LOW" ↔ s.TOTAL_SCORE < 35)) ∧
    out.stats.urgent = (out.rows.filter (fun s => s.PRIORITY_LABEL == "URGENT")).length ∧
    out.stats.high = (out.rows.filter (fun s => s.PRIORITY_LABEL == "HIGH")).length ∧
    out.stats.medium = (out.rows.filter (fun s => s.PRIORITY_LABEL == "MEDIUM")).length ∧
    out.stats.low = (out.rows.filter (fun s => s.PRIORITY_LABEL == "LOW")).length := by
  obtain ⟨rfl, -⟩ := load_eq_ok h
  have hlab : ∀ s ∈ (processTable m t).rows,
      s.PRIORITY_LABEL = priority_label s.TOTAL_SCORE := by
    intro s hs
    rw [mem_rows_iff] at hs
    obtain ⟨r, -, rfl⟩ := hs
    rfl
  have count_eq : ∀ (p : ℚ → Bool) (q : ScoredRow → Bool),
      (∀ s ∈ (processTable m t).rows, p s.TOTAL_SCORE = q s) →
      (((processTable m t).rows.map ScoredRow.TOTAL_SCORE).filter p).length =
        ((processTable m t).rows.filter q).length := by
    intro p q hpq
    rw [List.filter_map, List.length_map]
    exact congrArg List.length (List.filter_congr (fun x hx => hpq x hx))
  refine ⟨fun s hs => ?_, ?_, ?_, ?_, ?_⟩
  · rw [hlab s hs]
    exact priority_label_iff s.TOTAL_SCORE
  · exact count_eq _ _ (fun s hs => by rw [hlab s hs, (label_count_bools _).1])
  · exact count_eq _ _ (fun s hs => by rw [hlab s hs, (label_count_bools _).2.1])
  · exact count_eq _ _ (fun s hs => by rw [hlab s hs, (label_count_bools _).2.2.1])
  · exact count_eq _ _ (fun s hs => by rw [hlab s hs, (label_count_bools _).2.2.2])

/-- C7: on an accepted table the run never aborts on bad rows; a row is
dropped iff one of the six scoring fields is missing or a sentinel
string (trimmed, lowercased: "", "nan", "-", "none", "0", "pending");
the dropped count is exactly the number of such rows; and the output
rows are exactly (a permutation of) the valid rows — no dropped row ever
appears. -/
theorem c7_validator_exclusion (m : Nat) (t : Table) (h : 21 ≤ t.header.length) :
    ∃ out, load_and_process m t = Except.ok out ∧
      out.stats.dropped = (t.rows.filter row_invalid).length ∧
      (out.rows.map ScoredRow.src).Perm (t.rows.filter (fun r => !row_invalid r)) ∧
      (∀ s ∈ out.rows, s.src ∈ t.rows ∧ row_invalid s.src = false) ∧
      (∀ v : Option String, is_invalid v = true ↔ v = none ∨
        ∃ x, v = some x ∧ strLower (strTrim x) ∈ ["", "nan", "-", "none", "0", "pending"]) ∧
      (∀ r : Row, row_invalid r = true ↔
        ∃ v ∈ [DELIVERY_PERIOD r, DISPATCH_DAYS r, HIGH_LOW_HOLDER r,
          CURRENT_BUSINESS r, NATURE_SABHASAD r, SUPPORT r], is_invalid v = true) := by
  refine ⟨processTable m t, load_ok_of h, rfl, ?_, ?_, ?_, ?_⟩
  · rw [processTable_rows]
    have hperm := (List.mergeSort_perm
      ((t.rows.filter (fun r => !row_invalid r)).map
        (mkScored m (t.rows.filter (fun r => !row_invalid r))))
      (fun a b => a.PRIORITY_RANK ≤ b.PRIORITY_RANK)).map ScoredRow.src
    rw [List.map_map] at hperm
    exact hperm.trans (by rw [show ScoredRow.src ∘ mkScored m (t.rows.filter (fun r => !row_invalid r)) = id from rfl, List.map_id])
  · intro s hs
    rw [mem_rows_iff] at hs
    obtain ⟨r, hr, rfl⟩ := hs
    obtain ⟨hmem, hval⟩ := List.mem_filter.mp hr
    exact ⟨hmem, by simpa using hval⟩
  · intro v
    cases v with
    | none => simp [is_invalid]
    | some x =>
      simp only [is_invalid, List.elem_iff]
      constructor
      · intro hx
        exact Or.inr ⟨x, rfl, by simpa using hx⟩
      · rintro (hc | ⟨y, hy, hmem⟩)
        · cases hc
        · cases hy
          simpa using hmem
  · intro r
    unfold row_invalid
    exact List.any_eq_true

/-- C6: dispatch and demo day counts are bracketed identically
(≤10 → 22, ≤20 → 18, ≤30 → 13, ≤45 → 7, else 2); missing/sentinel day
fields are unscored; the combination rule is the 2:1 weighted mean when
both are scored, the dispatch score alone, 70% of the demo score alone,
or 0 when neither is scored; concretely dispatch "15" with demo "-"
scores 18. -/
theorem c6_payment_timing :
    (∀ d : ℚ, bracketScore d DISPATCH_RANGES DISPATCH_AFTER_45 =
      if d ≤ 10 then 22 else if d ≤ 20 then 18 else if d ≤ 30 then 13
      else if d ≤ 45 then 7 else 2) ∧
    DEMO_RANGES = DISPATCH_RANGES ∧ DEMO_AFTER_45 = DISPATCH_AFTER_45 ∧
    parse_days none = none ∧ parse_days (some "-") = none ∧
    parse_days (some "nan") = none ∧ parse_days (some "pending") = none ∧
    parse_days (some "") = none ∧ parse_days (some "abc") = none ∧
    parse_days (some "15") = some 15 ∧
    (∀ demo dispatch : Option String, parse_days dispatch = none →
      parse_days demo = none → score_payment demo dispatch = 0) ∧
    (∀ demo dispatch : Option String, ∀ d : ℚ, parse_days dispatch = some d →
      parse_days demo = none → score_payment demo dispatch =
        round2 (bracketScore d DISPATCH_RANGES DISPATCH_AFTER_45)) ∧
    (∀ demo dispatch : Option String, ∀ dm : ℚ, parse_days dispatch = none →
      parse_days demo = some dm → score_payment demo dispatch =
        round2 (bracketScore dm DEMO_RANGES DEMO_AFTER_45 * 0.7)) ∧
    (∀ demo dispatch : Option String, ∀ d dm : ℚ, parse_days dispatch = some d →
      parse_days demo = some dm → score_payment demo dispatch =
        round2 ((2 * bracketScore d DISPATCH_RANGES DISPATCH_AFTER_45 +
          1 * bracketScore dm DEMO_RANGES DEMO_AFTER_45) / 3)) ∧
    score_payment (some "-") (some "15") = 18 := by
  refine ⟨bracketScore_dispatch, rfl, rfl, rfl, by decide, by decide, by decide, by decide,
    by decide, by with_unfolding_all decide, ?_, ?_, ?_, ?_, by with_unfolding_all decide⟩
  · intro demo dispatch h1 h2
    simp only [score_payment, days_to_score, h1, h2]
  · intro demo dispatch d h1 h2
    simp only [score_payment, days_to_score, h1, h2]
  · intro demo dispatch dm h1 h2
    simp only [score_payment, days_to_score, h1, h2]
  · intro demo dispatch d dm h1 h2
    simp only [score_payment, days_to_score, h1, h2]

/-! ## Sorted-list helpers for the season parser -/

theorem matched_months_sorted (p : String) : List.Sorted (· < ·) (matched_months p) :=
  (List.pairwise_lt_range' 1 12).filter _

theorem sorted_headD_le {l : List Nat} (hl : List.Sorted (· < ·) l) :
    ∀ x ∈ l, l.headD 0 ≤ x := by
  cases l with
  | nil => simp
  | cons a t =>
    intro x hx
    rcases List.mem_cons.mp hx with rfl | hxt
    · simp
    · simpa using le_of_lt (List.rel_of_sorted_cons hl x hxt)

theorem sorted_le_getLastD (l : List Nat) :
    List.Sorted (· < ·) l → ∀ d, ∀ x ∈ l, x ≤ l.getLastD d := by
  induction l with
  | nil => intro _ d x hx; simp at hx
  | cons a t ih =>
    intro hl d x hx
    rw [List.getLastD_cons]
    rcases List.mem_cons.mp hx with rfl | hxt
    · cases t with
      | nil => simp [List.getLastD]
      | cons b t2 =>
        have hab : x < b := List.rel_of_sorted_cons hl b (by simp)
        have hb := ih hl.of_cons x b (by simp)
        omega
    · exact ih hl.of_cons a x hxt

theorem sorted_headD_le_getLastD {l : List Nat} (hl : List.Sorted (· < ·) l) :
    l.headD 0 ≤ l.getLastD 0 := by
  cases l with
  | nil => exact le_refl 0
  | cons a t =>
    rw [List.getLastD_cons]
    exact sorted_headD_le hl _ (List.getLastD_mem_cons t a)

/-- C10: the matched months are sorted ascending before the endpoints
are taken, so whenever at least two distinct months match, the parsed
season is the inclusive range from the smallest matched month (the
head) to the largest (the last) — the wrap branch is never taken — and
the season list returned by `parse_season_months` is always in strictly
ascending order. -/
theorem c10_season_is_ascending_range (p : String) :
    List.Sorted (· < ·) (parse_season_months (some p)) ∧
    (2 ≤ (matched_months (strLower p)).length →
      parse_season_months (some p) =
        List.range' ((matched_months (strLower p)).headD 0)
          ((matched_months (strLower p)).getLastD 0 + 1 -
            (matched_months (strLower p)).headD 0)) ∧
    (∀ x ∈ matched_months (strLower p),
      (matched_months (strLower p)).headD 0 ≤ x ∧
        x ≤ (matched_months (strLower p)).getLastD 0) := by
  have hs := matched_months_sorted (strLower p)
  have hle := sorted_headD_le_getLastD hs
  refine ⟨?_, fun h2 => ?_, fun x hx =>
    ⟨sorted_headD_le hs x hx, sorted_le_getLastD _ hs 0 x hx⟩⟩
  · unfold parse_season_months
    dsimp only
    by_cases h1 : (matched_months (strLower p)).length < 2
    · rw [if_pos h1]
      exact hs
    · rw [if_neg h1, if_pos hle]
      exact List.pairwise_lt_range' _ _
  · unfold parse_season_months
    dsimp only
    rw [if_neg (by omega), if_pos hle]

/-! ## Concrete sample evaluation, used by the witnesses -/

theorem sample_filter_valid :
    sampleTable.rows.filter (fun r => !row_invalid r) = [validRow] := by decide

theorem sample_rows : (processTable 12 sampleTable).rows = [sampleScored] := by
  rw [processTable_rows, sample_filter_valid]
  rw [show ([validRow].map (mkScored 12 [validRow])) = [sampleScored] from rfl]
  exact List.mergeSort_singleton _

/-- C2 witness: the sample run's single scored row is in bounds. -/
theorem c2_total_score_bounds_witness :
    0 ≤ sampleScored.TOTAL_SCORE ∧ sampleScored.TOTAL_SCORE ≤ 100 :=
  c2_total_score_bounds 12 sampleTable (processTable 12 sampleTable)
    (load_ok_of (by decide)) sampleScored
    (by rw [sample_rows]; exact List.mem_singleton_self _)

/-- C3 witness: the rank formula and sortedness on the sample run. -/
theorem c3_rank_assignment_witness :
    sampleScored.PRIORITY_RANK = 1 + ((processTable 12 sampleTable).rows.filter
      (fun s2 => sampleScored.TOTAL_SCORE < s2.TOTAL_SCORE)).length ∧
    List.Pairwise (fun a b => a.PRIORITY_RANK ≤ b.PRIORITY_RANK)
      (processTable 12 sampleTable).rows := by
  have h := c3_rank_assignment 12 sampleTable (processTable 12 sampleTable)
    (load_ok_of (by decide))
  exact ⟨h.1 sampleScored (by rw [sample_rows]; exact List.mem_singleton_self _), h.2.2.2⟩

/-- C4 witness: label/threshold agreement and the urgent count on the
sample run. -/
theorem c4_label_threshold_agreement_witness :
    (sampleScored.PRIORITY_LABEL = "URGENT" ↔ 75 ≤ sampleScored.TOTAL_SCORE) ∧
    (processTable 12 sampleTable).stats.urgent =
      ((processTable 12 sampleTable).rows.filter
        (fun s => s.PRIORITY_LABEL == "URGENT")).length := by
  have h := c4_label_threshold_agreement 12 sampleTable (processTable 12 sampleTable)
    (load_ok_of (by decide))
  exact ⟨(h.1 sampleScored (by rw [sample_rows]; exact List.mem_singleton_self _)).1, h.2.1⟩

/-- C5 witness: row conservation on the sample run (2 = 1 + 1). -/
theorem c5_row_conservation_witness :
    (processTable 12 sampleTable).stats.total_raw =
      (processTable 12 sampleTable).stats.total_scored +
        (processTable 12 sampleTable).stats.dropped :=
  c5_row_conservation 12 sampleTable (processTable 12 sampleTable) (load_ok_of (by decide))

/-- C6 witness: the both-scored combination at dispatch 15 / demo 20,
and the dispatch-only concrete case. -/
theorem c6_payment_timing_witness :
    score_payment (some "20") (some "15") =
      round2 ((2 * bracketScore 15 DISPATCH_RANGES DISPATCH_AFTER_45 +
        1 * bracketScore 20 DEMO_RANGES DEMO_AFTER_45) / 3) ∧
    score_payment (some "-") (some "15") = 18 := by
  obtain ⟨h1, h2, h3, h4, h5, h6, h7, h8, h9, h10, h11, h12, h13, h14, h15⟩ :=
    c6_payment_timing
  exact ⟨h14 (some "20") (some "15") 15 20 (by with_unfolding_all decide)
    (by with_unfolding_all decide), h15⟩

/-- C7 witness: the validator contract holds on the sample run (one
valid row, one "pending" holder-tier row). -/
theorem c7_validator_exclusion_witness :
    ∃ out, load_and_process 12 sampleTable = Except.ok out ∧
      out.stats.dropped = (sampleTable.rows.filter row_invalid).length ∧
      (out.rows.map ScoredRow.src).Perm
        (sampleTable.rows.filter (fun r => !row_invalid r)) ∧
      (∀ s ∈ out.rows, s.src ∈ sampleTable.rows ∧ row_invalid s.src = false) ∧
      (∀ v : Option String, is_invalid v = true ↔ v = none ∨
        ∃ x, v = some x ∧ strLower (strTrim x) ∈ ["", "nan", "-", "none", "0", "pending"]) ∧
      (∀ r : Row, row_invalid r = true ↔
        ∃ v ∈ [DELIVERY_PERIOD r, DISPATCH_DAYS r, HIGH_LOW_HOLDER r,
          CURRENT_BUSINESS r, NATURE_SABHASAD r, SUPPORT r], is_invalid v = true) :=
  c7_validator_exclusion 12 sampleTable (by decide)

/-- C10 witness: "Nov-Feb" matches two months and parses to the
ascending range 2..11. -/
theorem c10_season_is_ascending_range_witness :
    List.Sorted (· < ·) (parse_season_months (some "Nov-Feb")) ∧
    parse_season_months (some "Nov-Feb") =
      List.range' ((matched_months (strLower "Nov-Feb")).headD 0)
        ((matched_months (strLower "Nov-Feb")).getLastD 0 + 1 -
          (matched_months (strLower "Nov-Feb")).headD 0) :=
  ⟨(c10_season_is_ascending_range "Nov-Feb").1,
   (c10_season_is_ascending_range "Nov-Feb").2.1 (by decide)⟩

end PCSales
